import Mathlib

/-!
Shallow embedding of the farmOS-aggregator access-resolution and
token-lifecycle subsystem (src/backend/app/app/api/utils/farms.py and
src/backend/app/app/db_models/farm.py), with theorems settling the
specification claims about it.

Conventions of the embedding:
* Python exceptions raised by a function become `Except` results.
* Database reads/writes and outbound mail become explicit event lists
  returned next to the result, so that "no fetch happened" is statable.
* Collaborators that live in this repository but outside the two source
  files (the crud layer, `FarmAccess`, `FarmTokenBase`,
  `send_admin_alert_email`) are modelled from the specification text and
  carry a doc comment saying so.
* External libraries (the `farmOS` client constructor, the HTTP POST of
  the OAuth exchange) are oracles passed in as function arguments.
-/

/-- `fastapi.HTTPException`: a status code plus a detail message. -/
structure HTTPException where
  status_code : Nat
  detail : String
deriving DecidableEq, Repr

/-- `unauthorized_exception` (farms.py lines 27-30): built with
`HTTP_401_UNAUTHORIZED` (numeric value 401) and the
"Not enough permissions" detail. -/
def unauthorized_exception : HTTPException :=
  { status_code := 401, detail := "Not enough permissions to access this farm." }

/-- `farm_not_found_exception` (farms.py lines 32-35). -/
def farm_not_found_exception : HTTPException :=
  { status_code := 404, detail := "Farm does not exist." }

/-- Modelled from the spec: `FarmAccess` (app/schemas/token.py) is not under
src/. §3 AccessGrant: `all_farms` unrestricted, or an explicit
`farm_id_list`, or neither (no default access). -/
structure FarmAccess where
  all_farms : Bool
  farm_id_list : Option (List Nat)
deriving DecidableEq, Repr

/-- Modelled from the spec: `can_access(farm_id)` is true if `all_farms`;
else true iff `farm_id` is a member of `farm_id_list`; else false (§3). -/
def FarmAccess.can_access_farm (fa : FarmAccess) (farm_id : Nat) : Bool :=
  fa.all_farms ||
    (match fa.farm_id_list with
     | some ids => ids.contains farm_id
     | none => false)

/-- A farm row as consumed by the resolver functions of farms.py through the
persistence boundary: identity, network address and the activity flag the
`active=True` queries filter on (spec §6). -/
structure FarmRec where
  id : Nat
  url : String
  active : Bool
deriving DecidableEq, Repr

/-- The farm inventory the crud accessors read. -/
abbrev FarmDB : Type := List FarmRec

/-- Modelled from the spec: `crud.farm.get_by_url(db, farm_url, active?)`
(app/crud/farm.py is not under src/); spec §6
`farm.get_by_url(url, active?) -> Farm|none`. -/
def crud_get_by_url (db : FarmDB) (farm_url : String) (active : Bool) :
    Option FarmRec :=
  (List.filter (fun f => f.url == farm_url && (!active || f.active)) db).head?

/-- Modelled from the spec: `crud.farm.get_by_id(db, farm_id)`; spec §6
`farm.get_by_id(id) -> Farm|none`. -/
def crud_get_by_id (db : FarmDB) (farm_id : Nat) : Option FarmRec :=
  (List.filter (fun f => f.id == farm_id) db).head?

/-- Modelled from the spec: `crud.farm.get_by_multi_id(db, farm_id_list,
active?)`; spec §6 `farm.get_by_multi_id(ids, active?) -> seq Farm`. -/
def crud_get_by_multi_id (db : FarmDB) (farm_id_list : List Nat)
    (active : Bool) : List FarmRec :=
  List.filter (fun f => farm_id_list.contains f.id && (!active || f.active)) db

/-- Modelled from the spec: `crud.farm.get_multi(db, active?)`; spec §6
`farm.get_multi(active?) -> seq Farm`. -/
def crud_get_multi (db : FarmDB) (active : Bool) : List FarmRec :=
  List.filter (fun f => !active || f.active) db

/-- One database fetch performed by a resolver, recorded so that theorems can
speak about whether any farm data was fetched. -/
inductive DBFetch
  | getMulti (active : Bool)
  | getByMultiId (ids : List Nat) (active : Bool)
  | getByUrl (u : String) (active : Bool)
  | getById (i : Nat)
deriving DecidableEq, Repr

/-- `get_farm_by_url` (farms.py lines 38-53): `farm = None`; if a url was
given, look it up (no active filter), raise NotFound when absent, raise the
unauthorized exception when the grant cannot access the farm's id, and
otherwise return the farm. -/
def get_farm_by_url (db : FarmDB) (farm_url : Option String)
    (farm_access : FarmAccess) : Except HTTPException (Option FarmRec) :=
  match farm_url with
  | none => .ok none
  | some u =>
    match crud_get_by_url db u false with
    | none => .error farm_not_found_exception
    | some farm =>
      if !farm_access.can_access_farm farm.id then .error unauthorized_exception
      else .ok (some farm)

/-- `get_active_farm_by_url` (farms.py lines 56-71): as `get_farm_by_url` but
the lookup passes `active=True`. -/
def get_active_farm_by_url (db : FarmDB) (farm_url : Option String)
    (farm_access : FarmAccess) : Except HTTPException (Option FarmRec) :=
  match farm_url with
  | none => .ok none
  | some u =>
    match crud_get_by_url db u true with
    | none => .error farm_not_found_exception
    | some farm =>
      if !farm_access.can_access_farm farm.id then .error unauthorized_exception
      else .ok (some farm)

/-- `get_farms_by_id_list` (farms.py lines 74-100). The python falls off the
end (returning `None`) when no id list is given and the grant has neither
shape. The loop `for id in farm_id: if not can_access_farm(id): raise`
raises the unauthorized exception iff some listed id is inaccessible, and
only afterwards is `get_by_multi_id` called; the second component records
the fetches performed. -/
def get_farms_by_id_list (db : FarmDB) (farm_id : Option (List Nat))
    (farm_access : FarmAccess) :
    Except HTTPException (Option (List FarmRec)) × List DBFetch :=
  match farm_id with
  | none =>
    if farm_access.all_farms then
      (.ok (some (crud_get_multi db false)), [.getMulti false])
    else
      match farm_access.farm_id_list with
      | some ids => (.ok (some (crud_get_by_multi_id db ids false)),
                     [.getByMultiId ids false])
      | none => (.ok none, [])
  | some ids =>
    if ids.all (fun i => farm_access.can_access_farm i) then
      let farms_by_id := crud_get_by_multi_id db ids false
      if farms_by_id.length > 0 then
        (.ok (some farms_by_id), [.getByMultiId ids false])
      else
        (.error farm_not_found_exception, [.getByMultiId ids false])
    else
      (.error unauthorized_exception, [])

/-- `get_active_farms_by_id_list` (farms.py lines 103-129): as
`get_farms_by_id_list` but every fetch passes `active=True`. -/
def get_active_farms_by_id_list (db : FarmDB) (farm_id : Option (List Nat))
    (farm_access : FarmAccess) :
    Except HTTPException (Option (List FarmRec)) × List DBFetch :=
  match farm_id with
  | none =>
    if farm_access.all_farms then
      (.ok (some (crud_get_multi db true)), [.getMulti true])
    else
      match farm_access.farm_id_list with
      | some ids => (.ok (some (crud_get_by_multi_id db ids true)),
                     [.getByMultiId ids true])
      | none => (.ok none, [])
  | some ids =>
    if ids.all (fun i => farm_access.can_access_farm i) then
      let farms_by_id := crud_get_by_multi_id db ids true
      if farms_by_id.length > 0 then
        (.ok (some farms_by_id), [.getByMultiId ids true])
      else
        (.error farm_not_found_exception, [.getByMultiId ids true])
    else
      (.error unauthorized_exception, [])

/-- `get_farm_by_id` (farms.py lines 132-145): grant check first, then the
fetch, then NotFound when absent. -/
def get_farm_by_id (db : FarmDB) (farm_id : Nat) (farm_access : FarmAccess) :
    Except HTTPException FarmRec :=
  if !farm_access.can_access_farm farm_id then .error unauthorized_exception
  else
    match crud_get_by_id db farm_id with
    | none => .error farm_not_found_exception
    | some farm => .ok farm

/-- `get_farms_url_or_list` (farms.py lines 148-161), over the already
resolved dependency values: start from `farms = []`, append the URL farm if
present, else extend with the id-list result if present. -/
def get_farms_url_or_list (farm_by_url : Option FarmRec)
    (farms_by_list : Option (List FarmRec)) : List FarmRec :=
  match farm_by_url with
  | some f => [f]
  | none =>
    match farms_by_list with
    | some fs => fs
    | none => []

/-- `get_active_farms_url_or_list` (farms.py lines 164-177): identical
combination logic over the active-only dependencies. -/
def get_active_farms_url_or_list (farm_by_url : Option FarmRec)
    (farms_by_list : Option (List FarmRec)) : List FarmRec :=
  match farm_by_url with
  | some f => [f]
  | none =>
    match farms_by_list with
    | some fs => fs
    | none => []

/-! ## Token store -/

/-- The mutable token fields that `_save_token` writes (access token, refresh
token, type, scope, expiry — spec §3 Token). -/
structure TokenFields where
  access_token : String
  refresh_token : String
  token_type : String
  scope : String
  expires_at : String
deriving DecidableEq, Repr

/-- One persisted token row: primary key, owning farm, fields. -/
structure TokenRow where
  id : Nat
  farm_id : Nat
  fields : TokenFields
deriving DecidableEq, Repr

/-- The token table plus the next fresh primary key. -/
structure TokenDB where
  rows : List TokenRow
  nextId : Nat
deriving DecidableEq, Repr

/-- Modelled from the spec: `update_farm_token` (app/crud/farm_token.py is
not under src/) — "if farm currently owns a token, replace its fields
(update)" (§4.2): the row keeps its primary key and owner, only the fields
change. -/
def update_farm_token (db : TokenDB) (token : TokenRow)
    (token_in : TokenFields) : TokenDB :=
  { db with rows := db.rows.map (fun r =>
      if r.id == token.id then { r with fields := token_in } else r) }

/-- Modelled from the spec: `create_farm_token` (app/crud/farm_token.py is
not under src/) — "else create a new owned token record" (§4.2): one fresh
row owned by the farm. -/
def create_farm_token (db : TokenDB) (farm_id : Nat)
    (token_in : TokenFields) : TokenDB :=
  { rows := db.rows ++ [{ id := db.nextId, farm_id := farm_id, fields := token_in }],
    nextId := db.nextId + 1 }

/-- The farm object as `_save_token` and `get_farm_client` see it: identity,
address, optional scope and the owned token row (zero-or-one). -/
structure ClientFarm where
  id : Nat
  url : String
  scope : Option String
  token : Option TokenRow
deriving DecidableEq, Repr

/-- `_save_token` (farms.py lines 181-191): given the bound db session and
farm (both present when the callback fires — the partial application in
`get_farm_client` supplies them, and the python guards on that), update the
farm's token row when one exists, else create one. When either bound value
is absent the python does nothing and the table is unchanged. -/
def save_token (token : TokenFields) (db_session : Option TokenDB)
    (farm : Option ClientFarm) : Option TokenDB :=
  match db_session, farm with
  | some db, some f =>
    some (match f.token with
          | some t => update_farm_token db t token
          | none => create_farm_token db f.id token)
  | db, _ => db

/-- Number of token rows owned by a farm. -/
def ownedCount (db : TokenDB) (farm_id : Nat) : Nat :=
  db.rows.countP (fun r => r.farm_id == farm_id)

/-! ## OAuth client factory -/

/-- The process-wide configuration get_farm_client and admin_alert_email
read (spec §6 configuration consumed). -/
structure Settings where
  AGGREGATOR_OAUTH_CLIENT_ID : String
  AGGREGATOR_OAUTH_CLIENT_SECRET : String
  AGGREGATOR_OAUTH_INSECURE_TRANSPORT : Bool
  AGGREGATOR_ALERT_ALL_ERRORS : Bool
  EMAILS_ENABLED : Bool
deriving DecidableEq, Repr

/-- A python exception as the caller observes it. `clientError m` is
`ClientError(e)` (farms.py lines 275-277) wrapping the original cause's
text `m`; `validationError` is a pydantic validation failure;
`httpError` is a raised `HTTPException`; `keyError` a missing-dict-key
failure. -/
inductive PyError
  | httpError (e : HTTPException)
  | clientError (message : String)
  | validationError (message : String)
  | keyError (key : String)
deriving DecidableEq, Repr

/-- The authenticated handle the farmOS constructor returns on success. -/
structure ClientHandle where
  hostname : String
  client_id : String
  client_secret : String
  scope : Option String
  token : TokenFields
deriving DecidableEq, Repr

/-- A side effect of `get_farm_client` / `admin_alert_email`, recorded in
order: crud health updates, the log line, and an alert email dispatch. -/
inductive Effect
  | updateLastAccessed (farm_id : Nat)
  | updateIsAuthorized (farm_id : Nat) (is_authorized : Bool)
      (auth_error : Option String)
  | logError (message : String)
  | alertAdmins (message : String)
deriving DecidableEq, Repr

/-- Modelled from the spec: `FarmTokenBase.from_orm(farm.token)`
(app/schemas/farm_token.py is not under src/). The spec's Token carries
required fields (access token, refresh token, type, scope, expiry — §3,
with expiry "must be computed (not left absent)"), so validating an absent
record fails with a pydantic validation error, while a present row yields
its fields. -/
def farm_token_from_orm (token : Option TokenRow) :
    Except PyError TokenFields :=
  match token with
  | some t => .ok t.fields
  | none => .error (.validationError "FarmTokenBase.from_orm: none is not a valid token")

/-- `get_farm_client` (farms.py lines 195-229). The farmOS constructor is an
oracle `farmOS_new` mapping (hostname, scope, token) to either a handle or
the text of the exception it raises (an exception's `repr(e) + str(e)`
rendering is modelled by that text). Steps outside the `try` block —
settings reads, scope resolution, `FarmTokenBase.from_orm` — propagate
their error with no effects. Inside the `try`: on success the farm's
last-accessed is stamped and it is marked authorized; on failure an alert
is sent iff `AGGREGATOR_ALERT_ALL_ERRORS`, the error is logged, the farm is
marked unauthorized with the error text, and `ClientError` wraps the
cause. -/
def get_farm_client (settings : Settings) (farm : ClientFarm)
    (farmOS_new : String → Option String → TokenFields → Except String ClientHandle) :
    Except PyError ClientHandle × List Effect :=
  let scope := farm.scope
  match farm_token_from_orm farm.token with
  | .error e => (.error e, [])
  | .ok token =>
    match farmOS_new farm.url scope token with
    | .ok client =>
      (.ok client, [.updateLastAccessed farm.id,
                    .updateIsAuthorized farm.id true none])
    | .error e =>
      let message := "Cannot authenticate client with farmOS server id: "
        ++ toString farm.id ++ " - " ++ e
      (.error (.clientError e),
       (if settings.AGGREGATOR_ALERT_ALL_ERRORS then [.alertAdmins message] else [])
         ++ [.logError message,
             .updateIsAuthorized farm.id false (some e)])

/-! ## OAuth exchange -/

/-- The `auth_params` argument of `get_oauth_token`. -/
structure AuthParams where
  code : String
  state : String
  grant_type : String
  client_id : String
  client_secret : Option String
  redirect_uri : Option String
deriving DecidableEq, Repr

/-- The form-encoded body POSTed to `{farm_url}/oauth2/token`, together with
that url (spec §6 wire contract). -/
structure TokenRequest where
  token_url : String
  code : String
  state : String
  grant_type : String
  client_id : String
  redirect_uri : String
  client_secret : Option String
deriving DecidableEq, Repr

/-- The remote token endpoint's reply: status code and the JSON fields the
code reads (spec §6: access_token, refresh_token, token_type, scope,
expires_in | expires_at). Time instants are whole seconds. -/
structure TokenResponse where
  status_code : Nat
  access_token : String
  refresh_token : String
  token_type : String
  scope : String
  expires_in : Option Int
  expires_at : Option Int
deriving DecidableEq, Repr

/-- The `FarmTokenBase` value `get_oauth_token` returns, holding the parsed
body with its (possibly computed) expiry. -/
structure FarmTokenParsed where
  access_token : String
  refresh_token : String
  token_type : String
  scope : String
  expires_at : Option Int
deriving DecidableEq, Repr

/-- The `data` dict and token url built by `get_oauth_token` (farms.py lines
234-247): code, state, grant_type, client_id; redirect_uri defaults to
`farm_url + "/api/authorized"` and is overridden when `auth_params`
carries one; client_secret is included when present. -/
def build_token_request (farm_url : String) (auth_params : AuthParams) :
    TokenRequest :=
  { token_url := farm_url ++ "/oauth2/token",
    code := auth_params.code, state := auth_params.state,
    grant_type := auth_params.grant_type, client_id := auth_params.client_id,
    redirect_uri :=
      match auth_params.redirect_uri with
      | some r => r
      | none => farm_url ++ "/api/authorized",
    client_secret := auth_params.client_secret }

/-- `get_oauth_token` (farms.py lines 232-262). The POST is an oracle
`post`; `now` is `time.time()` in whole seconds. On HTTP 200, when the
body has no `expires_at` it becomes `now + int(expires_in)` — a missing
`expires_in` there is a KeyError. On any other status the 400
"Could not retrieve an access token." HTTPException is raised. -/
def get_oauth_token (farm_url : String) (auth_params : AuthParams)
    (post : TokenRequest → TokenResponse) (now : Int) :
    Except PyError FarmTokenParsed :=
  let response := post (build_token_request farm_url auth_params)
  if response.status_code == 200 then
    match response.expires_at with
    | some x =>
      .ok { access_token := response.access_token,
            refresh_token := response.refresh_token,
            token_type := response.token_type, scope := response.scope,
            expires_at := some x }
    | none =>
      match response.expires_in with
      | some n =>
        .ok { access_token := response.access_token,
              refresh_token := response.refresh_token,
              token_type := response.token_type, scope := response.scope,
              expires_at := some (now + n) }
      | none => .error (.keyError "expires_in")
  else
    .error (.httpError { status_code := 400,
                         detail := "Could not retrieve an access token." })

/-! ## Alert sink -/

/-- A user row as `admin_alert_email` reads it. -/
structure UserRec where
  email : String
  is_superuser : Bool
deriving DecidableEq, Repr

/-- One attempted dispatch of the alert message to one recipient, with the
outcome the mail layer reports for that recipient. -/
structure MailAttempt where
  email : String
  message : String
  success : Bool
deriving DecidableEq, Repr

/-- `admin_alert_email` (farms.py lines 265-272). No-op unless
`EMAILS_ENABLED`; otherwise every superuser among `crud.user.get_multi` is
sent the message in turn. `send_admin_alert_email` (app/utils.py, not under
src/) is modelled from the spec: dispatch is per recipient and a failed
send is reported for that recipient without raising ("Failure to send to
one recipient must not block sending to others", §4.5); the oracle
`send_ok` gives each recipient's outcome. -/
def admin_alert_email (settings : Settings) (users : List UserRec)
    (send_ok : String → Bool) (message : String) : List MailAttempt :=
  if settings.EMAILS_ENABLED then
    (users.filter (fun u => u.is_superuser)).map
      (fun u => { email := u.email, message := message, success := send_ok u.email })
  else []

/-! ## Farm entity declaration -/

/-- The column types `db_models/farm.py` imports from sqlalchemy. -/
inductive ColType
  | integer
  | string
  | boolean
deriving DecidableEq, Repr

/-- The `Farm` entity declaration (db_models/farm.py lines 6-12): the exact
columns the class declares, in order, with their types. -/
def farm_entity_columns : List (String × ColType) :=
  [("id", .integer), ("farm_name", .string), ("url", .string),
   ("username", .string), ("password", .string), ("is_authenticated", .boolean)]

/-! ## Theorems -/

/-- C1: for an explicit non-empty id list, if any listed id is inaccessible
under the grant both id-list resolvers fail with the access-denied error
and the fetch trace is empty (all-or-nothing, no fetch of the accessible
subset); if every listed id is accessible the fetch of the listed ids
proceeds. -/
theorem id_list_all_or_nothing (db : FarmDB) (ids : List Nat) (fa : FarmAccess)
    (_hne : ids ≠ []) :
    ((∃ i ∈ ids, fa.can_access_farm i = false) →
      get_farms_by_id_list db (some ids) fa = (.error unauthorized_exception, []) ∧
      get_active_farms_by_id_list db (some ids) fa = (.error unauthorized_exception, [])) ∧
    ((∀ i ∈ ids, fa.can_access_farm i = true) →
      (get_farms_by_id_list db (some ids) fa).2 = [DBFetch.getByMultiId ids false] ∧
      (get_active_farms_by_id_list db (some ids) fa).2 = [DBFetch.getByMultiId ids true]) := by
  constructor
  · rintro ⟨i, hi, hfalse⟩
    have hall : ids.all (fun i => fa.can_access_farm i) = false := by
      rw [List.all_eq_false]
      exact ⟨i, hi, by simp [hfalse]⟩
    constructor <;>
      simp [get_farms_by_id_list, get_active_farms_by_id_list, hall]
  · intro h
    have hall : ids.all (fun i => fa.can_access_farm i) = true := by
      rw [List.all_eq_true]
      intro i hi
      exact h i hi
    constructor <;>
      · simp only [get_farms_by_id_list, get_active_farms_by_id_list, hall,
          if_true]
        split <;> rfl

/-- C1 witness: ids `[1, 2, 3]` with a grant restricted to `{1, 2}` fail with
the access-denied error and no fetch. -/
theorem id_list_all_or_nothing_witness :
    get_farms_by_id_list [] (some [1, 2, 3]) ⟨false, some [1, 2]⟩ =
      (.error unauthorized_exception, []) :=
  ((id_list_all_or_nothing [] [1, 2, 3] ⟨false, some [1, 2]⟩ (by decide)).1
    (by decide)).1

/-- C2: without a url both url resolvers return none; an unknown url fails
with NotFound; a known url whose farm the grant cannot access fails with
the access-denied error; an accessible match is returned; and the two
errors are distinct. -/
theorem url_resolution_cases (db : FarmDB) (u : String) (fa : FarmAccess)
    (farm : FarmRec) :
    (get_farm_by_url db none fa = .ok none ∧
     get_active_farm_by_url db none fa = .ok none) ∧
    (crud_get_by_url db u false = none →
      get_farm_by_url db (some u) fa = .error farm_not_found_exception) ∧
    (crud_get_by_url db u true = none →
      get_active_farm_by_url db (some u) fa = .error farm_not_found_exception) ∧
    (crud_get_by_url db u false = some farm → fa.can_access_farm farm.id = false →
      get_farm_by_url db (some u) fa = .error unauthorized_exception) ∧
    (crud_get_by_url db u true = some farm → fa.can_access_farm farm.id = false →
      get_active_farm_by_url db (some u) fa = .error unauthorized_exception) ∧
    (crud_get_by_url db u false = some farm → fa.can_access_farm farm.id = true →
      get_farm_by_url db (some u) fa = .ok (some farm)) ∧
    (crud_get_by_url db u true = some farm → fa.can_access_farm farm.id = true →
      get_active_farm_by_url db (some u) fa = .ok (some farm)) ∧
    farm_not_found_exception ≠ unauthorized_exception := by
  refine ⟨⟨rfl, rfl⟩, ?_, ?_, ?_, ?_, ?_, ?_, by decide⟩
  all_goals first
    | (intro h1 h2
       simp [get_farm_by_url, get_active_farm_by_url, h1, h2])
    | (intro h1
       simp [get_farm_by_url, get_active_farm_by_url, h1])

/-- C2 witness: a known url whose farm (id 9) is outside the grant's id set
fails with the access-denied error. -/
theorem url_resolution_cases_witness :
    get_farm_by_url [⟨9, "a", true⟩] (some "a") ⟨false, some []⟩ =
      .error unauthorized_exception :=
  (url_resolution_cases [⟨9, "a", true⟩] "a" ⟨false, some []⟩
      ⟨9, "a", true⟩).2.2.2.1 rfl rfl

/-- C3: both combiners return the singleton of the URL-resolved farm whenever
one exists, regardless of the id-list result; otherwise the id-list result;
and the empty sequence when both inputs are none. -/
theorem combined_url_priority (f : FarmRec) (fbl : Option (List FarmRec))
    (l : List FarmRec) :
    get_farms_url_or_list (some f) fbl = [f] ∧
    get_farms_url_or_list none (some l) = l ∧
    get_farms_url_or_list none none = [] ∧
    get_active_farms_url_or_list (some f) fbl = [f] ∧
    get_active_farms_url_or_list none (some l) = l ∧
    get_active_farms_url_or_list none none = [] :=
  ⟨rfl, rfl, rfl, rfl, rfl, rfl⟩

/-- Updating the fields of the row with a given id never changes any row's
owner, so per-farm ownership counts are unchanged. -/
theorem countP_update_rows (rows : List TokenRow) (tid : Nat)
    (tok : TokenFields) (fid : Nat) :
    (rows.map (fun r => if r.id == tid then { r with fields := tok } else r)).countP
        (fun r => r.farm_id == fid) =
      rows.countP (fun r => r.farm_id == fid) := by
  induction rows with
  | nil => rfl
  | cons a l ih =>
    simp only [List.map_cons, List.countP_cons]
    rw [ih]
    by_cases h : a.id == tid
    · simp [h]
    · simp [h]

/-- C4: `_save_token` preserves at-most-one-token-per-farm. When the farm owns
a token row, that row is updated in place — same row count, the owned row's
id survives carrying the new fields, all other rows untouched, and every
farm's ownership count is unchanged. When the farm owns none, exactly one
new row owned by it is appended. -/
theorem save_token_one_per_farm (db : TokenDB) (f : ClientFarm)
    (tok : TokenFields) :
    (∀ t, f.token = some t → t ∈ db.rows →
      ∃ db', save_token tok (some db) (some f) = some db' ∧
        db'.rows.length = db.rows.length ∧
        ({ t with fields := tok } : TokenRow) ∈ db'.rows ∧
        (∀ r ∈ db.rows, r.id ≠ t.id → r ∈ db'.rows) ∧
        (∀ fid, ownedCount db' fid = ownedCount db fid)) ∧
    (f.token = none → ownedCount db f.id = 0 →
      ∃ db', save_token tok (some db) (some f) = some db' ∧
        db'.rows = db.rows ++ [{ id := db.nextId, farm_id := f.id, fields := tok }] ∧
        ownedCount db' f.id = 1) := by
  constructor
  · intro t ht hmem
    refine ⟨update_farm_token db t tok, by simp [save_token, ht], ?_, ?_, ?_, ?_⟩
    · simp [update_farm_token]
    · have hmap := List.mem_map_of_mem
        (fun x => if x.id == t.id then { x with fields := tok } else x) hmem
      simpa [update_farm_token] using hmap
    · intro r hr hne
      have hmap := List.mem_map_of_mem
        (fun x => if x.id == t.id then { x with fields := tok } else x) hr
      simp only [beq_iff_eq, if_neg hne] at hmap
      simpa [update_farm_token] using hmap
    · intro fid
      unfold ownedCount update_farm_token
      exact countP_update_rows db.rows t.id tok fid
  · intro ht h0
    refine ⟨create_farm_token db f.id tok, by simp [save_token, ht], rfl, ?_⟩
    unfold ownedCount at h0 ⊢
    simp [create_farm_token, List.countP_append, h0]

/-- C4 witness: a farm owning row 0 gets its token updated in place (row
count stays 1). -/
theorem save_token_one_per_farm_witness :
    ∃ db',
      save_token ⟨"a2", "r2", "Bearer", "s", "9"⟩
          (some ⟨[⟨0, 7, ⟨"a1", "r1", "Bearer", "s", "5"⟩⟩], 1⟩)
          (some ⟨7, "u", none, some ⟨0, 7, ⟨"a1", "r1", "Bearer", "s", "5"⟩⟩⟩) =
        some db' ∧
      db'.rows.length = 1 ∧
      ({ id := 0, farm_id := 7, fields := ⟨"a2", "r2", "Bearer", "s", "9"⟩ } : TokenRow) ∈ db'.rows := by
  obtain ⟨db', h1, h2, h3, -⟩ :=
    (save_token_one_per_farm ⟨[⟨0, 7, ⟨"a1", "r1", "Bearer", "s", "5"⟩⟩], 1⟩
        ⟨7, "u", none, some ⟨0, 7, ⟨"a1", "r1", "Bearer", "s", "5"⟩⟩⟩
        ⟨"a2", "r2", "Bearer", "s", "9"⟩).1
      ⟨0, 7, ⟨"a1", "r1", "Bearer", "s", "5"⟩⟩ rfl (by decide)
  exact ⟨db', h1, by simpa using h2, h3⟩

/-- C5: when the farmOS constructor fails for a farm with a stored token, the
call returns the ClientError wrapping the cause (never a usable handle),
the farm is marked unauthorized with the captured error text, and an admin
alert is dispatched iff the alert-on-all-errors policy is enabled. -/
theorem client_failure_escalation (s : Settings) (farm : ClientFarm)
    (farmOS_new : String → Option String → TokenFields → Except String ClientHandle)
    (t : TokenRow) (e : String)
    (htok : farm.token = some t)
    (hfail : farmOS_new farm.url farm.scope t.fields = .error e) :
    (get_farm_client s farm farmOS_new).1 = .error (.clientError e) ∧
    (∀ c, (get_farm_client s farm farmOS_new).1 ≠ .ok c) ∧
    Effect.updateIsAuthorized farm.id false (some e) ∈
      (get_farm_client s farm farmOS_new).2 ∧
    ((∃ m, Effect.alertAdmins m ∈ (get_farm_client s farm farmOS_new).2) ↔
      s.AGGREGATOR_ALERT_ALL_ERRORS = true) := by
  have hgc : get_farm_client s farm farmOS_new =
      (.error (.clientError e),
       (if s.AGGREGATOR_ALERT_ALL_ERRORS then
          [.alertAdmins ("Cannot authenticate client with farmOS server id: "
            ++ toString farm.id ++ " - " ++ e)]
        else [])
         ++ [.logError ("Cannot authenticate client with farmOS server id: "
              ++ toString farm.id ++ " - " ++ e),
             .updateIsAuthorized farm.id false (some e)]) := by
    simp [get_farm_client, farm_token_from_orm, htok, hfail]
  rw [hgc]
  refine ⟨rfl, by simp, by simp, ?_⟩
  cases hs : s.AGGREGATOR_ALERT_ALL_ERRORS <;> simp [hs]

/-- C5 witness: a concrete farm whose constructor raises "boom" yields the
wrapped ClientError. -/
theorem client_failure_escalation_witness :
    (get_farm_client ⟨"cid", "sec", false, true, true⟩
        ⟨7, "https://f", none, some ⟨0, 7, ⟨"a", "r", "Bearer", "s", "5"⟩⟩⟩
        (fun _ _ _ => .error "boom")).1 = .error (.clientError "boom") :=
  (client_failure_escalation ⟨"cid", "sec", false, true, true⟩
      ⟨7, "https://f", none, some ⟨0, 7, ⟨"a", "r", "Bearer", "s", "5"⟩⟩⟩
      (fun _ _ _ => .error "boom")
      ⟨0, 7, ⟨"a", "r", "Bearer", "s", "5"⟩⟩ "boom" rfl rfl).1

/-- C10: when the farm's stored token is absent, `get_farm_client` fails
while loading the token, before the guarded construction step: the result
is the validation error (not a ClientError) and the effect list is empty —
no authorization-state update, no alert. -/
theorem client_token_absent (s : Settings) (farm : ClientFarm)
    (farmOS_new : String → Option String → TokenFields → Except String ClientHandle)
    (htok : farm.token = none) :
    get_farm_client s farm farmOS_new =
      (.error (.validationError "FarmTokenBase.from_orm: none is not a valid token"),
       []) ∧
    (∀ m, (get_farm_client s farm farmOS_new).1 ≠ .error (.clientError m)) := by
  have hgc : get_farm_client s farm farmOS_new =
      (.error (.validationError "FarmTokenBase.from_orm: none is not a valid token"),
       []) := by
    simp [get_farm_client, farm_token_from_orm, htok]
  refine ⟨hgc, ?_⟩
  rw [hgc]
  intro m h
  simp at h

/-- C10 witness: a concrete farm without a token fails with the validation
error and an empty effect list. -/
theorem client_token_absent_witness :
    get_farm_client ⟨"cid", "sec", false, true, true⟩
        ⟨7, "https://f", none, none⟩ (fun _ _ _ => .error "boom") =
      (.error (.validationError "FarmTokenBase.from_orm: none is not a valid token"),
       []) :=
  (client_token_absent ⟨"cid", "sec", false, true, true⟩
      ⟨7, "https://f", none, none⟩ (fun _ _ _ => .error "boom") rfl).1

/-- C6: on an HTTP 200 token response whose body lacks `expires_at` but
carries `expires_in = n`, the returned token's expiry is exactly
`now + n`; and whatever the response, a returned token never has an absent
expiry. -/
theorem oauth_expiry_computed (farm_url : String) (ap : AuthParams)
    (post : TokenRequest → TokenResponse) (now n : Int)
    (h200 : (post (build_token_request farm_url ap)).status_code = 200)
    (habs : (post (build_token_request farm_url ap)).expires_at = none)
    (hin : (post (build_token_request farm_url ap)).expires_in = some n) :
    (∃ tok, get_oauth_token farm_url ap post now = .ok tok ∧
      tok.expires_at = some (now + n)) ∧
    (∀ post' tok', get_oauth_token farm_url ap post' now = .ok tok' →
      tok'.expires_at ≠ none) := by
  constructor
  · refine ⟨⟨(post (build_token_request farm_url ap)).access_token,
      (post (build_token_request farm_url ap)).refresh_token,
      (post (build_token_request farm_url ap)).token_type,
      (post (build_token_request farm_url ap)).scope,
      some (now + n)⟩, ?_, rfl⟩
    simp [get_oauth_token, h200, habs, hin]
  · intro post' tok' h
    simp only [get_oauth_token] at h
    split at h
    · split at h
      · injection h with h
        subst h
        simp
      · split at h
        · injection h with h
          subst h
          simp
        · exact Except.noConfusion h
    · exact Except.noConfusion h

/-- C6 witness: a 200 response with `expires_in = 3600` and no `expires_at`,
taken at time 1000, yields a token expiring at 4600. -/
theorem oauth_expiry_computed_witness :
    ∃ tok,
      get_oauth_token "https://f" ⟨"c", "st", "authorization_code", "cid", none, none⟩
          (fun _ => ⟨200, "at", "rt", "Bearer", "s", some 3600, none⟩) 1000 =
        .ok tok ∧
      tok.expires_at = some 4600 := by
  obtain ⟨tok, h1, h2⟩ :=
    (oauth_expiry_computed "https://f" ⟨"c", "st", "authorization_code", "cid", none, none⟩
        (fun _ => ⟨200, "at", "rt", "Bearer", "s", some 3600, none⟩) 1000 3600
        rfl rfl rfl).1
  exact ⟨tok, h1, h2.trans (by norm_num)⟩

/-- C7 counterexample: an access-denied failure is surfaced with status code
401, not the claimed 403. -/
theorem access_denied_not_403 :
    get_farm_by_id [] 5 ⟨false, none⟩ = .error unauthorized_exception ∧
    unauthorized_exception.status_code = 401 ∧
    ¬ unauthorized_exception.status_code = 403 :=
  ⟨rfl, rfl, by decide⟩

/-- C7 amended: every access-denied failure raised by the resolver
operations is the one `unauthorized_exception`, a 401-equivalent error
carrying the "not enough permissions" message, distinct from the
404-equivalent NotFound error. -/
theorem access_denied_is_401 (db : FarmDB) (u : String) (ids : List Nat)
    (i fid : Nat) (fa : FarmAccess) (farm : FarmRec) :
    (crud_get_by_url db u false = some farm → fa.can_access_farm farm.id = false →
      get_farm_by_url db (some u) fa = .error unauthorized_exception) ∧
    (crud_get_by_url db u true = some farm → fa.can_access_farm farm.id = false →
      get_active_farm_by_url db (some u) fa = .error unauthorized_exception) ∧
    (i ∈ ids → fa.can_access_farm i = false →
      (get_farms_by_id_list db (some ids) fa).1 = .error unauthorized_exception ∧
      (get_active_farms_by_id_list db (some ids) fa).1 = .error unauthorized_exception) ∧
    (fa.can_access_farm fid = false →
      get_farm_by_id db fid fa = .error unauthorized_exception) ∧
    unauthorized_exception.status_code = 401 ∧
    unauthorized_exception.detail = "Not enough permissions to access this farm." ∧
    farm_not_found_exception.status_code = 404 ∧
    unauthorized_exception ≠ farm_not_found_exception := by
  refine ⟨?_, ?_, ?_, ?_, rfl, rfl, rfl, by decide⟩
  · intro h1 h2
    simp [get_farm_by_url, h1, h2]
  · intro h1 h2
    simp [get_active_farm_by_url, h1, h2]
  · intro hi hfalse
    have hall : ids.all (fun j => fa.can_access_farm j) = false := by
      rw [List.all_eq_false]
      exact ⟨i, hi, by simp [hfalse]⟩
    constructor <;>
      simp [get_farms_by_id_list, get_active_farms_by_id_list, hall]
  · intro h
    simp [get_farm_by_id, h]

/-- C7 witness: a grant restricted to `{1}` denied farm 5 receives the
401-status unauthorized exception. -/
theorem access_denied_is_401_witness :
    get_farm_by_id [] 5 ⟨false, some [1]⟩ = .error unauthorized_exception :=
  (access_denied_is_401 [] "" [] 0 5 ⟨false, some [1]⟩ ⟨0, "", true⟩).2.2.2.1
    (by decide)

/-- C8: with alerting disabled the call is a no-op; with it enabled every
superuser receives a dispatch attempt carrying their own outcome, and the
list of recipients attempted does not depend on the per-recipient outcomes
(a failed send to one never removes another's dispatch). -/
theorem alert_email_independent_dispatch (s : Settings) (users : List UserRec)
    (send_ok send_ok' : String → Bool) (message : String) (u : UserRec) :
    (s.EMAILS_ENABLED = false → admin_alert_email s users send_ok message = []) ∧
    (s.EMAILS_ENABLED = true → u ∈ users → u.is_superuser = true →
      ({ email := u.email, message := message, success := send_ok u.email } : MailAttempt) ∈
        admin_alert_email s users send_ok message) ∧
    ((admin_alert_email s users send_ok message).map (fun a => a.email) =
      (admin_alert_email s users send_ok' message).map (fun a => a.email)) := by
  refine ⟨?_, ?_, ?_⟩
  · intro h
    simp [admin_alert_email, h]
  · intro h hu hsup
    simp only [admin_alert_email, h, if_true]
    exact List.mem_map_of_mem _ (List.mem_filter.mpr ⟨hu, hsup⟩)
  · by_cases h : s.EMAILS_ENABLED <;>
      simp [admin_alert_email, h, List.map_map, Function.comp]

/-- C8 witness: with alerting enabled and every send failing, the first
superuser's dispatch attempt still appears. -/
theorem alert_email_independent_dispatch_witness :
    ({ email := "a@x", message := "m", success := false } : MailAttempt) ∈
      admin_alert_email ⟨"cid", "sec", false, true, true⟩
        [⟨"a@x", true⟩, ⟨"b@x", true⟩] (fun _ => false) "m" :=
  (alert_email_independent_dispatch ⟨"cid", "sec", false, true, true⟩
      [⟨"a@x", true⟩, ⟨"b@x", true⟩] (fun _ => false) (fun _ => true) "m"
      ⟨"a@x", true⟩).2.1 rfl (by decide) rfl

/-- C9: the Farm entity declaration carries exactly id, farm_name, url,
username, password and an is_authenticated boolean; none of the
authorization-health (is_authorized / auth_error), scope, last-accessed,
activity or token fields that farms.py reads and writes are declared on
it. -/
theorem farm_entity_missing_fields :
    farm_entity_columns.map Prod.fst =
      ["id", "farm_name", "url", "username", "password", "is_authenticated"] ∧
    "is_authorized" ∉ farm_entity_columns.map Prod.fst ∧
    "auth_error" ∉ farm_entity_columns.map Prod.fst ∧
    "scope" ∉ farm_entity_columns.map Prod.fst ∧
    "last_accessed" ∉ farm_entity_columns.map Prod.fst ∧
    "active" ∉ farm_entity_columns.map Prod.fst ∧
    "token" ∉ farm_entity_columns.map Prod.fst := by
  refine ⟨rfl, ?_, ?_, ?_, ?_, ?_, ?_⟩ <;> decide
